import Mathlib

/-!
Shallow embedding of the session and content-delivery layer of the
logical-reasoning practice client: the token store, request gateway,
content fallback resolver and session facade from `src/services/api.ts`,
and the question-lifecycle handlers from `App.tsx`.

State is a record holding the in-memory token cache, the persisted
`auth_token` entry, and a counter of outbound network calls.  Network
and storage effects are modelled by oracle parameters: each `fetch`
receives a `FetchOutcome` describing what the network did, and each
storage operation receives a flag saying whether the backing store
threw.  Errors are JavaScript `Error` values modelled by their
`message` string, since the source discriminates errors by message
content.
-/

namespace LRPractice

/-- The mutable state of the `ApiService` singleton: the in-memory
token cache (`this.token`), the persisted `auth_token` key in
AsyncStorage, and an instrumentation counter of outbound `fetch`
invocations. -/
structure ApiState where
  token : Option String
  stored : Option String
  calls : Nat
deriving Repr, DecidableEq

/-- JavaScript truthiness of `this.token`: `null` and the empty
string are falsy, every other string is truthy. -/
def optTokenTruthy : Option String → Bool
  | none => false
  | some t => t != ""

/-- `loadToken`: copies the persisted credential into the in-memory
cache; if `AsyncStorage.getItem` throws, the error is caught and
logged and the cache is left as it was. -/
def loadToken (st : ApiState) (storageFail : Bool) : ApiState :=
  if storageFail then st else { st with token := st.stored }

/-- `saveToken`: sets the in-memory cache first, then writes the
persistent store; a failing `AsyncStorage.setItem` is caught and
swallowed, so the cache reflects the new token regardless. -/
def saveToken (st : ApiState) (t : String) (storageFail : Bool) : ApiState :=
  let st1 : ApiState := { st with token := some t }
  if storageFail then st1 else { st1 with stored := some t }

/-- `removeToken`: clears the in-memory cache first, then removes the
persisted key; a failing `AsyncStorage.removeItem` is caught and
swallowed, so the cache is cleared regardless. -/
def removeToken (st : ApiState) (storageFail : Bool) : ApiState :=
  let st1 : ApiState := { st with token := none }
  if storageFail then st1 else { st1 with stored := none }

/-- The `ApiService` constructor: the field initialiser sets
`this.token = null`, then the constructor runs `loadToken`. -/
def mkApiService (persisted : Option String) (loadFail : Bool) : ApiState :=
  loadToken { token := none, stored := persisted, calls := 0 } loadFail

/-- `getToken`. -/
def getToken (st : ApiState) : Option String :=
  st.token

/-- `isAuthenticated`: `!!this.token`. -/
def isAuthenticated (st : ApiState) : Bool :=
  optTokenTruthy st.token

/-- The `Authorization` header the request config spreads in:
`...(this.token && \x7b Authorization: Bearer <token> \x7d)` adds the
header exactly when the cached token is truthy. -/
def authorizationHeader (st : ApiState) : Option String :=
  match st.token with
  | none => none
  | some t => if t != "" then some ("Bearer " ++ t) else none

/-- A JavaScript `Error`, modelled by its `message`. -/
structure JsError where
  message : String
deriving Repr, DecidableEq

/-- What one `fetch` invocation did: either the promise resolved with a
response (`ok` flag, numeric `status`, and the outcome of
`response.json()`), or it rejected (transport failure). -/
inductive FetchOutcome (α : Type) where
  | response (ok : Bool) (status : Nat) (json : Except String α)
  | reject (msg : String)

/-- The request gateway `ApiService.request`: one `fetch` per
invocation; on a non-ok response with status 401 it removes the token
and throws `Error("Authentication failed")`; on any other non-ok
response it throws `Error("HTTP error! status: <status>")`; on a
resolved ok response it returns the parsed body (a `json()` rejection
propagates); a transport rejection propagates.  The outer catch only
logs and rethrows the same error. -/
def request {α : Type} (st : ApiState) (outcome : FetchOutcome α)
    (removeFail : Bool) : Except JsError α × ApiState :=
  let st1 : ApiState := { st with calls := st.calls + 1 }
  match outcome with
  | .reject msg => (.error ⟨msg⟩, st1)
  | .response ok status json =>
    if ok then
      match json with
      | .ok v => (.ok v, st1)
      | .error m => (.error ⟨m⟩, st1)
    else if status = 401 then
      (.error ⟨"Authentication failed"⟩, removeToken st1 removeFail)
    else
      (.error ⟨"HTTP error! status: " ++ toString status⟩, st1)

/-- Whether `pat` is a prefix of `l`. -/
def charsPrefix : List Char → List Char → Bool
  | [], _ => true
  | _ :: _, [] => false
  | a :: as, b :: bs => a == b && charsPrefix as bs

/-- Whether `pat` occurs contiguously inside `l`. -/
def charsInfix (pat : List Char) : List Char → Bool
  | [] => pat.isEmpty
  | b :: bs => charsPrefix pat (b :: bs) || charsInfix pat bs

/-- JavaScript `String.prototype.includes`, used by `getProfile` to
sniff for "401" in an error message. -/
def includesSubstring (s pat : String) : Bool :=
  charsInfix pat.toList s.toList

/-- A `Question` as defined in `api.ts`. -/
structure Question where
  id : String
  type : String
  question : String
  options : List String
  correct_answer : String
  explanation : String
  difficulty : Option Nat := none
deriving Repr, DecidableEq

/-- The user record returned inside `/auth/profile` responses. -/
structure User where
  id : Nat
  username : String
  email : String
  subscription_type : String
deriving Repr, DecidableEq

/-- The `SubmitAnswerResponse` shape. -/
structure SubmitAnswerResponse where
  correct : Bool
  explanation : String
  correctAnswer : String
deriving Repr, DecidableEq

/-- The per-category accuracy record used in the fallback stats. -/
structure AccuracyByType where
  strengthen : Int
  weaken : Int
  assumption : Int
  flaw : Int
deriving Repr, DecidableEq

/-- The stats shape returned by `getUserStats` (optional fields are
`Option`). -/
structure UserStats where
  questionsAnswered : Int
  accuracy : Int
  currentStreak : Int
  longestStreak : Option Int
  accuracyByType : Option AccuracyByType
  correctAnswers : Option Int
deriving Repr, DecidableEq

/-- The literal fallback stats record built in `getUserStats`'s catch
branch. -/
def fallbackStats : UserStats :=
  { questionsAnswered := 0
    accuracy := 0
    currentStreak := 0
    longestStreak := some 0
    accuracyByType := some { strengthen := 0, weaken := 0, assumption := 0, flaw := 0 }
    correctAnswers := some 0 }

/-- The four question categories of `GenerateQuestionRequest.type`. -/
inductive QCategory where
  | strengthen
  | weaken
  | assumption
  | flaw
deriving Repr, DecidableEq

/-- The string carried by each category literal. -/
def QCategory.toStr : QCategory → String
  | .strengthen => "strengthen"
  | .weaken => "weaken"
  | .assumption => "assumption"
  | .flaw => "flaw"

/-- The pre-authored `strengthen` sample question. -/
def sampleStrengthen : Question :=
  { id := "sample-strengthen-1"
    type := "strengthen"
    question := "A local restaurant owner claims that installing outdoor heaters will significantly increase winter revenue. She argues that customers will be more likely to dine outside during cold months if the patio is heated, thus expanding seating capacity when indoor dining is limited.\n\nWhich of the following, if true, most strengthens the restaurant owner\x27s argument?"
    options :=
      [ "A) The cost of outdoor heaters can be recovered within six months of installation"
      , "B) Other restaurants in the area have reported increased winter sales after installing outdoor heaters"
      , "C) Many customers prefer dining outdoors regardless of temperature"
      , "D) The restaurant currently has a waiting list during peak dinner hours in winter"
      , "E) Outdoor heaters consume significant amounts of energy" ]
    correct_answer := "B"
    explanation := "Option B strengthens the argument by providing concrete evidence that outdoor heaters have actually resulted in increased winter sales for similar restaurants." }

/-- The pre-authored `weaken` sample question. -/
def sampleWeaken : Question :=
  { id := "sample-weaken-1"
    type := "weaken"
    question := "City planners argue that building a new subway line will reduce traffic congestion downtown. They claim that many commuters will switch from driving to taking the subway, resulting in fewer cars on the roads during rush hour.\n\nWhich of the following, if true, most weakens the planners\x27 argument?"
    options :=
      [ "A) The subway line will increase property values along its route"
      , "B) The construction of the subway will temporarily increase traffic congestion"
      , "C) Most downtown commuters live in areas not served by the new subway line"
      , "D) Subway tickets will cost less than parking fees downtown"
      , "E) The subway will run every 10 minutes during rush hour" ]
    correct_answer := "C"
    explanation := "Option C weakens the argument because if most commuters live in areas not served by the subway, they cannot switch to using it, undermining the predicted reduction in traffic." }

/-- The pre-authored `assumption` sample question. -/
def sampleAssumption : Question :=
  { id := "sample-assumption-1"
    type := "assumption"
    question := "A company CEO argues that implementing a four-day work week will increase employee productivity. She reasons that well-rested employees are more focused and efficient, so the company will accomplish the same amount of work in fewer days.\n\nThe CEO\x27s argument depends on which of the following assumptions?"
    options :=
      [ "A) Employees currently work inefficiently due to fatigue"
      , "B) The company does not offer four-day work weeks to competitors"
      , "C) Employee salaries will remain the same despite working fewer days"
      , "D) The work that needs to be completed can be done in four days instead of five"
      , "E) Employees will not seek additional employment on their extra day off" ]
    correct_answer := "D"
    explanation := "The argument assumes that the total amount of work can actually be completed in four days. Without this assumption, the conclusion cannot follow." }

/-- The pre-authored `flaw` sample question. -/
def sampleFlaw : Question :=
  { id := "sample-flaw-1"
    type := "flaw"
    question := "Dr. Martinez concludes that playing classical music improves mathematical ability in children. Her evidence is a study showing that students who took piano lessons for six months scored higher on math tests than those who did not take lessons.\n\nThe reasoning is most vulnerable to criticism because it:"
    options :=
      [ "A) Relies on a study with too small a sample size"
      , "B) Fails to consider that piano lessons and listening to classical music are different activities"
      , "C) Ignores the possibility that students who choose piano lessons may already have stronger analytical skills"
      , "D) Does not account for the students socioeconomic backgrounds"
      , "E) Assumes that correlation between piano lessons and math scores indicates causation" ]
    correct_answer := "E"
    explanation := "The main flaw is assuming that correlation between piano lessons and math scores indicates causation. Just because students who take piano lessons score higher doesn\x27t mean the lessons caused the improvement." }

/-- The content fallback resolver `getSampleQuestion`: a record lookup
by category string, defaulting to the `strengthen` sample when the key
is absent (`sampleQuestions[type] || sampleQuestions.strengthen`). -/
def getSampleQuestion (type : String) : Question :=
  if type = "strengthen" then sampleStrengthen
  else if type = "weaken" then sampleWeaken
  else if type = "assumption" then sampleAssumption
  else if type = "flaw" then sampleFlaw
  else sampleStrengthen

/-- Member names inherited by every plain object literal from
`Object.prototype`; each resolves to a truthy value (a built-in
function, or the prototype object itself for `__proto__`). -/
def objectPrototypeMembers : List String :=
  [ "constructor", "hasOwnProperty", "isPrototypeOf", "propertyIsEnumerable"
  , "toLocaleString", "toString", "valueOf", "__proto__"
  , "__defineGetter__", "__defineSetter__", "__lookupGetter__", "__lookupSetter__" ]

/-- What `sampleQuestions[type]` followed by `|| sampleQuestions.strengthen`
can produce under JavaScript property-lookup semantics: one of the
pre-authored questions (an own property of the literal, or the default),
or a truthy member found by traversing up to `Object.prototype`. -/
inductive JsLookup where
  | question (q : Question)
  | inherited (name : String)
deriving Repr, DecidableEq

/-- The fallback resolver with JavaScript property-lookup semantics:
an own key of the `sampleQuestions` literal returns its question;
otherwise the lookup traverses the prototype chain, and a name of an
inherited `Object.prototype` member returns that truthy member, which
short-circuits the `||`; only when the lookup yields `undefined`
(falsy) does the `||` fall back to the strengthen sample. -/
def getSampleQuestionLookup (type : String) : JsLookup :=
  if type = "strengthen" then .question sampleStrengthen
  else if type = "weaken" then .question sampleWeaken
  else if type = "assumption" then .question sampleAssumption
  else if type = "flaw" then .question sampleFlaw
  else if type ∈ objectPrototypeMembers then .inherited type
  else .question sampleStrengthen

/-- `getProfile`: delegates to the gateway; its catch removes the
token again only when the error message contains the substring "401",
then rethrows. -/
def getProfile (st : ApiState) (outcome : FetchOutcome User)
    (removeFail1 removeFail2 : Bool) : Except JsError User × ApiState :=
  match request st outcome removeFail1 with
  | (.ok u, st1) => (.ok u, st1)
  | (.error e, st1) =>
    if includesSubstring e.message "401" then
      (.error e, removeToken st1 removeFail2)
    else
      (.error e, st1)

/-- `checkAuthStatus`: returns false at once when the cached token is
falsy (no network call); otherwise verifies the session with
`getProfile`, returning true on success, and on any failure removes
the token and returns false (the catch swallows the error). -/
def checkAuthStatus (st : ApiState) (outcome : FetchOutcome User)
    (removeFail1 removeFail2 removeFail3 : Bool) : Bool × ApiState :=
  if optTokenTruthy st.token then
    match getProfile st outcome removeFail1 removeFail2 with
    | (.ok _, st1) => (true, st1)
    | (.error _, st1) => (false, removeToken st1 removeFail3)
  else
    (false, st)

/-- `logout`: when the cached token is truthy, attempts the
server-side invalidation call and swallows any error it throws; in
every case it then removes the local token. -/
def logout (st : ApiState) (outcome : FetchOutcome Unit)
    (removeFail1 removeFail2 : Bool) : ApiState :=
  let st1 : ApiState :=
    if optTokenTruthy st.token then (request st outcome removeFail1).2 else st
  removeToken st1 removeFail2

/-- `generateQuestion`: attempts the authenticated generate call; in
the catch, when `isAuthenticated()` is false at that moment, it
returns the sample question for the requested category instead of
rethrowing; otherwise the error propagates unchanged. -/
def generateQuestion (st : ApiState) (cat : QCategory)
    (outcome : FetchOutcome Question) (removeFail : Bool) :
    Except JsError Question × ApiState :=
  match request st outcome removeFail with
  | (.ok q, st1) => (.ok q, st1)
  | (.error e, st1) =>
    if isAuthenticated st1 then (.error e, st1)
    else (.ok (getSampleQuestion cat.toStr), st1)

/-- `submitAnswer`: a plain delegation to the gateway, no fallback. -/
def submitAnswer (st : ApiState) (outcome : FetchOutcome SubmitAnswerResponse)
    (removeFail : Bool) : Except JsError SubmitAnswerResponse × ApiState :=
  request st outcome removeFail

/-- `getUserStats`: delegates to the gateway and on any error returns
the all-zero fallback stats record instead of rethrowing. -/
def getUserStats (st : ApiState) (outcome : FetchOutcome UserStats)
    (removeFail : Bool) : UserStats × ApiState :=
  match request st outcome removeFail with
  | (.ok v, st1) => (v, st1)
  | (.error _, st1) => (fallbackStats, st1)

/-- `getMissedQuestions`: delegates to the gateway and on any error
returns the empty list instead of rethrowing. -/
def getMissedQuestions (st : ApiState) (outcome : FetchOutcome (List Question))
    (removeFail : Bool) : List Question × ApiState :=
  match request st outcome removeFail with
  | (.ok qs, st1) => (qs, st1)
  | (.error _, st1) => ([], st1)

/-- The question-lifecycle fields of the `App` component state that
`handleAnswerSelect` and `handleSubmit` read and write. -/
structure AppQuestionState where
  currentQuestion : Option Question
  selectedAnswer : Option String
  showExplanation : Bool
  loading : Bool
deriving Repr, DecidableEq

/-- `handleAnswerSelect`: a no-op once the explanation is shown
(graded); otherwise records the selected option. -/
def handleAnswerSelect (s : AppQuestionState) (answer : String) : AppQuestionState :=
  if s.showExplanation then s else { s with selectedAnswer := some answer }

/-- JavaScript truthiness of `selectedAnswer && currentQuestion` as
used by `handleSubmit`'s guard. -/
def submitGuard (s : AppQuestionState) : Bool :=
  optTokenTruthy s.selectedAnswer && s.currentQuestion.isSome

/-- `handleSubmit`: alerts and returns when no answer is selected or no
question is loaded; otherwise submits through the facade, sets
`showExplanation` only on success, and on failure only alerts, leaving
the selection and explanation flag untouched.  `loading` is reset in
the `finally` either way. -/
def handleSubmit (s : AppQuestionState) (api : ApiState)
    (outcome : FetchOutcome SubmitAnswerResponse) (removeFail : Bool) :
    AppQuestionState × ApiState :=
  if submitGuard s then
    match submitAnswer api outcome removeFail with
    | (.ok _, api1) =>
      ({ s with showExplanation := true, loading := false }, api1)
    | (.error _, api1) =>
      ({ s with loading := false }, api1)
  else
    (s, api)

/-! ### Helper lemmas -/

/-- The authentication-failure message differs from every HTTP-status
message (they start with different characters). -/
theorem authFailedMsg_ne_httpMsg (status : Nat) :
    ("Authentication failed" : String) ≠ "HTTP error! status: " ++ toString status := by
  intro h
  have h1 : ("Authentication failed" : String).data.head? = some 'A' := rfl
  have h2 : ("HTTP error! status: " ++ toString status).data.head? = some 'H' := rfl
  rw [h, h2] at h1
  exact absurd h1 (by decide)

/-- Every gateway invocation performs exactly one fetch. -/
theorem request_calls {α : Type} (st : ApiState) (o : FetchOutcome α) (f : Bool) :
    ((request st o f).2).calls = st.calls + 1 := by
  cases o with
  | reject m => rfl
  | response ok status json =>
    cases ok with
    | true => cases json <;> rfl
    | false =>
      by_cases h : status = 401
      · subst h; cases f <;> rfl
      · simp [request, h]

/-- `getProfile` performs exactly one fetch. -/
theorem getProfile_calls (st : ApiState) (o : FetchOutcome User) (f₁ f₂ : Bool) :
    ((getProfile st o f₁ f₂).2).calls = st.calls + 1 := by
  unfold getProfile
  rcases hp : request st o f₁ with ⟨r, st1⟩
  have hc : st1.calls = st.calls + 1 := by
    have h := request_calls st o f₁
    rw [hp] at h
    exact h
  cases r with
  | ok u => simpa using hc
  | error e =>
    by_cases h4 : includesSubstring e.message "401"
    · simp only [h4, if_true]
      cases f₂ <;> simpa [removeToken] using hc
    · simp only [h4, if_false, Bool.false_eq_true]
      exact hc

/-! ### Claim theorems -/

/-- C7: `saveToken` and `removeToken` always set the in-memory cache
to the intended value, even when the persistent write fails (the
assignment precedes the store write and the storage error is caught);
a storage failure never propagates — each operation is a total
function into `ApiState` — and a failing load at construction leaves
the service with no credential. -/
theorem tokenStore_cache_reflects_intent (st : ApiState) (t : String)
    (storageFail : Bool) (persisted : Option String) :
    (saveToken st t storageFail).token = some t ∧
    (removeToken st storageFail).token = none ∧
    (storageFail = false → (saveToken st t storageFail).stored = some t ∧
      (removeToken st storageFail).stored = none) ∧
    (mkApiService persisted true).token = none := by
  refine ⟨?_, ?_, ?_, rfl⟩
  · cases storageFail <;> rfl
  · cases storageFail <;> rfl
  · intro h
    subst h
    exact ⟨rfl, rfl⟩

/-- Witness: saving over a failing store still caches the token, and a
succeeding clear removes the persisted key. -/
theorem tokenStore_cache_reflects_intent_witness :
    (saveToken ⟨none, none, 0⟩ "tok" true).token = some "tok" ∧
    (removeToken ⟨some "tok", some "tok", 0⟩ false).stored = none :=
  ⟨(tokenStore_cache_reflects_intent ⟨none, none, 0⟩ "tok" true none).1,
   ((tokenStore_cache_reflects_intent ⟨some "tok", some "tok", 0⟩ "x" false
      none).2.2.1 rfl).2⟩

/-- C9: `isAuthenticated` is true exactly when the cached credential
is non-null and non-empty; `saveToken` caches precisely the given
string, yet saving the empty string stores and persists it while
`isAuthenticated` still reports false. -/
theorem isAuthenticated_iff_truthy (st : ApiState) (t : String) :
    (isAuthenticated st = true ↔ ∃ s, st.token = some s ∧ s ≠ "") ∧
    (saveToken st t false).token = some t ∧
    (saveToken st "" false).stored = some "" ∧
    isAuthenticated (saveToken st "" false) = false := by
  refine ⟨?_, rfl, rfl, by simp [isAuthenticated, saveToken, optTokenTruthy]⟩
  constructor
  · intro h
    cases htok : st.token with
    | none => rw [isAuthenticated, optTokenTruthy.eq_def, htok] at h; exact absurd h (by decide)
    | some s =>
      refine ⟨s, rfl, ?_⟩
      rw [isAuthenticated, optTokenTruthy.eq_def, htok] at h
      simpa using h
  · rintro ⟨s, hs, hne⟩
    rw [isAuthenticated, optTokenTruthy.eq_def, hs]
    simpa using hne

/-- Witness for the authentication predicate: a non-empty token
authenticates, and saving the empty string leaves the device
unauthenticated. -/
theorem isAuthenticated_iff_truthy_witness :
    isAuthenticated ⟨some "tok", none, 0⟩ = true ∧
    isAuthenticated (saveToken ⟨some "tok", none, 0⟩ "" false) = false :=
  ⟨(isAuthenticated_iff_truthy ⟨some "tok", none, 0⟩ "tok").1.mpr
      ⟨"tok", rfl, by decide⟩,
   (isAuthenticated_iff_truthy ⟨some "tok", none, 0⟩ "tok").2.2.2⟩

/-- C3: whatever the credential state and whatever the server-side
invalidation call does (success, HTTP failure of any status, or
transport failure), `logout` completes with the in-memory credential
null and the persisted credential absent (the final local remove
succeeding); the device ends unauthenticated. -/
theorem logout_always_clears (st : ApiState) (outcome : FetchOutcome Unit)
    (f₁ : Bool) :
    (logout st outcome f₁ false).token = none ∧
    (logout st outcome f₁ false).stored = none ∧
    isAuthenticated (logout st outcome f₁ false) = false :=
  ⟨rfl, rfl, rfl⟩

/-- C6 counterexample: "toString" is none of the four known
categories, yet the lookup returns the truthy inherited
`Object.prototype` member — the `||` never fires — so the result is
not the strengthen sample. -/
theorem getSampleQuestion_default_counterexample :
    (("toString" : String) ≠ "strengthen" ∧ ("toString" : String) ≠ "weaken" ∧
      ("toString" : String) ≠ "assumption" ∧ ("toString" : String) ≠ "flaw") ∧
    getSampleQuestionLookup "toString" ≠ getSampleQuestionLookup "strengthen" ∧
    getSampleQuestionLookup "toString" = .inherited "toString" := by
  refine ⟨⟨by decide, by decide, by decide, by decide⟩, ?_, rfl⟩
  intro h
  rw [show getSampleQuestionLookup "toString" = .inherited "toString" from rfl,
    show getSampleQuestionLookup "strengthen" = .question sampleStrengthen from rfl] at h
  exact JsLookup.noConfusion h

/-- C6 (amended): the resolver is deterministic — equal category
strings yield equal results — and on each of the four known category
keys it returns exactly that category's sample question; a string that
is neither a known category nor the name of an inherited
`Object.prototype` member resolves to the strengthen sample, while a
prototype-member name instead yields that truthy inherited member. -/
theorem getSampleQuestion_deterministic_default_amended (c₁ c₂ s p : String)
    (heq : c₁ = c₂)
    (hs : s ≠ "strengthen" ∧ s ≠ "weaken" ∧ s ≠ "assumption" ∧ s ≠ "flaw" ∧
      s ∉ objectPrototypeMembers)
    (hp : p ≠ "strengthen" ∧ p ≠ "weaken" ∧ p ≠ "assumption" ∧ p ≠ "flaw" ∧
      p ∈ objectPrototypeMembers) :
    getSampleQuestionLookup c₁ = getSampleQuestionLookup c₂ ∧
    (∀ cat : QCategory,
      getSampleQuestionLookup cat.toStr = .question (getSampleQuestion cat.toStr)) ∧
    getSampleQuestionLookup s = getSampleQuestionLookup "strengthen" ∧
    getSampleQuestionLookup p = .inherited p := by
  obtain ⟨h1, h2, h3, h4, h5⟩ := hs
  obtain ⟨p1, p2, p3, p4, p5⟩ := hp
  subst heq
  have hstr : getSampleQuestionLookup "strengthen" = .question sampleStrengthen := rfl
  refine ⟨rfl, ?_, ?_, ?_⟩
  · intro cat
    cases cat <;> rfl
  · rw [hstr]
    simp [getSampleQuestionLookup, h1, h2, h3, h4, h5]
  · simp [getSampleQuestionLookup, p1, p2, p3, p4, p5]

/-- Witness: the unrecognized non-prototype category "mystery"
resolves to the strengthen sample, while the prototype-member name
"toString" yields the inherited member. -/
theorem getSampleQuestion_deterministic_default_amended_witness :
    getSampleQuestionLookup "mystery" = getSampleQuestionLookup "strengthen" ∧
    getSampleQuestionLookup "toString" = .inherited "toString" := by
  have T := getSampleQuestion_deterministic_default_amended "weaken" "weaken"
    "mystery" "toString" rfl
    ⟨by decide, by decide, by decide, by decide, by decide⟩
    ⟨by decide, by decide, by decide, by decide, by decide⟩
  exact ⟨T.2.2.1, T.2.2.2⟩

/-- C10: the gateway's 401 error carries the message "Authentication
failed", which does not contain the substring "401", so the removal
branch inside `getProfile`'s catch is skipped: the result of a 401
profile fetch is that error together with exactly the state the
gateway left (no further credential mutation). -/
theorem getProfile_401_no_second_removal (st : ApiState)
    (json : Except String User) (f₁ f₂ : Bool) :
    includesSubstring "Authentication failed" "401" = false ∧
    (request st (.response false 401 json) f₁).1
      = .error ⟨"Authentication failed"⟩ ∧
    getProfile st (.response false 401 json) f₁ f₂
      = (.error ⟨"Authentication failed"⟩,
         (request st (.response false 401 json) f₁).2) :=
  ⟨by decide, rfl, rfl⟩

/-- C2: a 401 response makes the gateway clear the cached credential
(and the persisted one when the storage remove succeeds) and fail with
the authentication-failure message, which differs from every
HTTP-status failure message, and afterwards no Authorization header is
attached; on every other outcome (success, other non-ok status,
transport failure) the credential fields are untouched; every outcome
performs exactly one fetch. -/
theorem request_401_invalidates {α : Type} (st : ApiState)
    (json : Except String α) (status : Nat) (ok : Bool) (f : Bool) (msg : String) :
    ((request st (.response false 401 json) f).1
        = .error ⟨"Authentication failed"⟩ ∧
      ((request st (.response false 401 json) f).2).token = none ∧
      (f = false → ((request st (.response false 401 json) f).2).stored = none) ∧
      authorizationHeader ((request st (.response false 401 json) f).2) = none) ∧
    (status ≠ 401 →
      ((request st (.response false status json) f).2).token = st.token ∧
      ((request st (.response false status json) f).2).stored = st.stored ∧
      (request st (.response false status json) f).1
        = .error ⟨"HTTP error! status: " ++ toString status⟩) ∧
    ((⟨"Authentication failed"⟩ : JsError)
        ≠ ⟨"HTTP error! status: " ++ toString status⟩) ∧
    (((request st (FetchOutcome.reject msg : FetchOutcome α) f).2).token = st.token ∧
      ((request st (FetchOutcome.reject msg : FetchOutcome α) f).2).stored = st.stored) ∧
    (((request st (.response true status json) f).2).token = st.token ∧
      ((request st (.response true status json) f).2).stored = st.stored) ∧
    ((request st (.response ok status json) f).2).calls = st.calls + 1 ∧
    ((request st (FetchOutcome.reject msg : FetchOutcome α) f).2).calls
      = st.calls + 1 := by
  refine ⟨⟨?_, ?_, ?_, ?_⟩, ?_, ?_, ⟨rfl, rfl⟩, ?_,
    request_calls st (.response ok status json) f,
    request_calls st (FetchOutcome.reject msg : FetchOutcome α) f⟩
  · rfl
  · cases f <;> rfl
  · intro h
    subst h
    rfl
  · cases f <;> rfl
  · intro h
    refine ⟨?_, ?_, ?_⟩ <;> simp [request, h]
  · intro h
    exact authFailedMsg_ne_httpMsg status (congrArg JsError.message h)
  · cases json <;> exact ⟨rfl, rfl⟩

/-- Witness: a 401 clears the cached and persisted token; a 500 leaves
the token in place. -/
theorem request_401_invalidates_witness :
    ((request (⟨some "tok", some "tok", 0⟩ : ApiState)
        (FetchOutcome.response false 401 (Except.error "no body") : FetchOutcome User)
        false).2).token = none ∧
    ((request (⟨some "tok", some "tok", 0⟩ : ApiState)
        (FetchOutcome.response false 401 (Except.error "no body") : FetchOutcome User)
        false).2).stored = none ∧
    ((request (⟨some "tok", some "tok", 0⟩ : ApiState)
        (FetchOutcome.response false 500 (Except.error "no body") : FetchOutcome User)
        false).2).token = some "tok" := by
  have T := request_401_invalidates (α := User) ⟨some "tok", some "tok", 0⟩
    (Except.error "no body") 500 true false "m"
  exact ⟨T.1.2.1, T.1.2.2.1 rfl, (T.2.1 (by decide)).1⟩

/-- C5: every gateway failure makes `getUserStats` return exactly the
all-zero fallback record and `getMissedQuestions` the empty list;
neither result type carries an error channel, so no error reaches the
caller. -/
theorem stats_and_missed_degrade (st : ApiState)
    (o₁ : FetchOutcome UserStats) (o₂ : FetchOutcome (List Question))
    (f₁ f₂ : Bool) (e₁ e₂ : JsError)
    (h₁ : (request st o₁ f₁).1 = .error e₁)
    (h₂ : (request st o₂ f₂).1 = .error e₂) :
    (getUserStats st o₁ f₁).1 = fallbackStats ∧
    (getMissedQuestions st o₂ f₂).1 = [] := by
  constructor
  · unfold getUserStats
    rcases hp : request st o₁ f₁ with ⟨r, st1⟩
    rw [hp] at h₁
    cases r with
    | ok v => exact absurd h₁ (by simp)
    | error e => rfl
  · unfold getMissedQuestions
    rcases hp : request st o₂ f₂ with ⟨r, st1⟩
    rw [hp] at h₂
    cases r with
    | ok v => exact absurd h₂ (by simp)
    | error e => rfl

/-- Witness: with the network down, the stats are the all-zero record
and the missed-question list is empty. -/
theorem stats_and_missed_degrade_witness :
    (getUserStats ⟨none, none, 0⟩ (.reject "Network request failed") false).1
      = fallbackStats ∧
    (getMissedQuestions ⟨none, none, 0⟩ (.reject "Network request failed") false).1
      = [] :=
  stats_and_missed_degrade ⟨none, none, 0⟩ (.reject "Network request failed")
    (.reject "Network request failed") false false ⟨"Network request failed"⟩
    ⟨"Network request failed"⟩ rfl rfl

/-- C4: with a falsy cached token `checkAuthStatus` returns false with
the state — including the fetch counter — untouched; with a truthy
token it performs exactly one profile fetch, returns true exactly when
`getProfile` succeeds, and on any profile failure clears the
credential and returns false. -/
theorem checkAuthStatus_policy (st : ApiState) (outcome : FetchOutcome User)
    (f₁ f₂ f₃ : Bool) :
    (optTokenTruthy st.token = false →
      checkAuthStatus st outcome f₁ f₂ f₃ = (false, st)) ∧
    (optTokenTruthy st.token = true →
      ((checkAuthStatus st outcome f₁ f₂ f₃).2).calls = st.calls + 1 ∧
      (∀ u st1, getProfile st outcome f₁ f₂ = (.ok u, st1) →
        checkAuthStatus st outcome f₁ f₂ f₃ = (true, st1)) ∧
      (∀ e st1, getProfile st outcome f₁ f₂ = (.error e, st1) →
        (checkAuthStatus st outcome f₁ f₂ f₃).1 = false ∧
        ((checkAuthStatus st outcome f₁ f₂ f₃).2).token = none)) := by
  have hpc := getProfile_calls st outcome f₁ f₂
  constructor
  · intro h
    simp [checkAuthStatus, h]
  · intro h
    have hkey : checkAuthStatus st outcome f₁ f₂ f₃ =
        (match getProfile st outcome f₁ f₂ with
          | (.ok _, st1) => (true, st1)
          | (.error _, st1) => (false, removeToken st1 f₃)) := by
      unfold checkAuthStatus
      rw [h]
      rfl
    rcases hp : getProfile st outcome f₁ f₂ with ⟨r, st1⟩
    rw [hp] at hpc hkey
    refine ⟨?_, ?_, ?_⟩
    · rw [hkey]
      cases r with
      | ok u => exact hpc
      | error e => cases f₃ <;> simpa [removeToken] using hpc
    · intro u st2 hu
      injection hu with h1 h2
      subst h2
      rw [hkey, h1]
    · intro e st2 he
      injection he with h1 h2
      subst h2
      constructor
      · rw [hkey, h1]
      · rw [hkey, h1]
        cases f₃ <;> rfl

/-- Witness: with no token cached the check is false with no fetch;
with a token cached and the network down it is false and the token is
cleared. -/
theorem checkAuthStatus_policy_witness :
    checkAuthStatus ⟨none, none, 0⟩ (.reject "offline") false false false
      = (false, ⟨none, none, 0⟩) ∧
    (checkAuthStatus ⟨some "tok", some "tok", 0⟩ (.reject "offline")
        false false false).1 = false ∧
    ((checkAuthStatus ⟨some "tok", some "tok", 0⟩ (.reject "offline")
        false false false).2).token = none := by
  refine ⟨(checkAuthStatus_policy ⟨none, none, 0⟩ (.reject "offline")
    false false false).1 rfl, ?_, ?_⟩
  · exact (((checkAuthStatus_policy ⟨some "tok", some "tok", 0⟩ (.reject "offline")
      false false false).2 rfl).2.2 ⟨"offline"⟩ ⟨some "tok", some "tok", 1⟩ rfl).1
  · exact (((checkAuthStatus_policy ⟨some "tok", some "tok", 0⟩ (.reject "offline")
      false false false).2 rfl).2.2 ⟨"offline"⟩ ⟨some "tok", some "tok", 1⟩ rfl).2

/-- C1: when the generate call fails and the caller is unauthenticated
at the moment the catch runs, `generateQuestion` returns — never
raises — the sample question for the requested category, whose `type`
field is that category; when the caller is still authenticated at that
moment the gateway error propagates unchanged.  A non-401 failure
leaves the credential untouched, so an authenticated caller receives
exactly the HTTP-status or transport error. -/
theorem generateQuestion_fallback_policy (st : ApiState) (cat : QCategory)
    (outcome : FetchOutcome Question) (f : Bool) (e : JsError) (st1 : ApiState)
    (hfail : request st outcome f = (.error e, st1)) :
    (isAuthenticated st1 = false →
      generateQuestion st cat outcome f = (.ok (getSampleQuestion cat.toStr), st1) ∧
      (getSampleQuestion cat.toStr).type = cat.toStr) ∧
    (isAuthenticated st1 = true →
      generateQuestion st cat outcome f = (.error e, st1)) ∧
    (∀ (status : Nat) (json : Except String Question), status ≠ 401 →
      isAuthenticated st = true →
      generateQuestion st cat (.response false status json) f
        = (.error ⟨"HTTP error! status: " ++ toString status⟩,
           { st with calls := st.calls + 1 })) ∧
    (∀ msg, isAuthenticated st = true →
      generateQuestion st cat (.reject msg) f
        = (.error ⟨msg⟩, { st with calls := st.calls + 1 })) := by
  refine ⟨?_, ?_, ?_, ?_⟩
  · intro hna
    constructor
    · unfold generateQuestion
      rw [hfail]
      simp [hna]
    · cases cat <;> rfl
  · intro ha
    unfold generateQuestion
    rw [hfail]
    simp [ha]
  · intro status json hs ha
    unfold generateQuestion
    have hr : request st (.response false status json) f
        = (.error ⟨"HTTP error! status: " ++ toString status⟩,
           { st with calls := st.calls + 1 }) := by
      simp [request, hs]
    rw [hr]
    simp only [isAuthenticated] at ha ⊢
    simp [ha]
  · intro msg ha
    unfold generateQuestion
    have hr : request st (FetchOutcome.reject msg : FetchOutcome Question) f
        = (.error ⟨msg⟩, { st with calls := st.calls + 1 }) := rfl
    rw [hr]
    simp only [isAuthenticated] at ha ⊢
    simp [ha]

/-- Witness: an unauthenticated guest with the network down receives
the weaken sample question and no error. -/
theorem generateQuestion_fallback_policy_witness :
    generateQuestion ⟨none, none, 0⟩ .weaken (.reject "Network request failed") false
      = (.ok (getSampleQuestion (QCategory.toStr .weaken)), ⟨none, none, 1⟩) ∧
    (getSampleQuestion (QCategory.toStr .weaken)).type = QCategory.toStr .weaken :=
  (generateQuestion_fallback_policy ⟨none, none, 0⟩ .weaken
    (.reject "Network request failed") false ⟨"Network request failed"⟩
    ⟨none, none, 1⟩ rfl).1 rfl

/-- C8: the graded state (`showExplanation`) is entered only on a
successful submission: on a failed submission the selection is
preserved and the explanation stays hidden; on success, with a
selection and a question present, the explanation is shown and the
selection kept; once graded, selecting an option changes nothing, and
selecting an option never grades. -/
theorem lifecycle_graded_only_on_success (s : AppQuestionState) (api : ApiState)
    (outcome : FetchOutcome SubmitAnswerResponse) (f : Bool) (a : String) :
    (∀ e api1, submitAnswer api outcome f = (.error e, api1) →
      ((handleSubmit s api outcome f).1).selectedAnswer = s.selectedAnswer ∧
      ((handleSubmit s api outcome f).1).showExplanation = s.showExplanation) ∧
    (∀ r api1, submitAnswer api outcome f = (.ok r, api1) → submitGuard s = true →
      ((handleSubmit s api outcome f).1).showExplanation = true ∧
      ((handleSubmit s api outcome f).1).selectedAnswer = s.selectedAnswer) ∧
    (s.showExplanation = true → handleAnswerSelect s a = s) ∧
    (s.showExplanation = false →
      (handleAnswerSelect s a).showExplanation = false) := by
  refine ⟨?_, ?_, ?_, ?_⟩
  · intro e api1 he
    cases hgb : submitGuard s with
    | false =>
      unfold handleSubmit
      rw [hgb]
      exact ⟨rfl, rfl⟩
    | true =>
      unfold handleSubmit
      rw [hgb, he]
      exact ⟨rfl, rfl⟩
  · intro r api1 hr hg
    unfold handleSubmit
    rw [hg, hr]
    exact ⟨rfl, rfl⟩
  · intro h
    unfold handleAnswerSelect
    rw [h]
    rfl
  · intro h
    unfold handleAnswerSelect
    rw [h]
    rfl

/-- Witness: a failed submission leaves the selection "B" in place
with the explanation hidden. -/
theorem lifecycle_graded_only_on_success_witness :
    ((handleSubmit ⟨some sampleStrengthen, some "B", false, true⟩ ⟨none, none, 0⟩
        (.reject "offline") false).1).selectedAnswer = some "B" ∧
    ((handleSubmit ⟨some sampleStrengthen, some "B", false, true⟩ ⟨none, none, 0⟩
        (.reject "offline") false).1).showExplanation = false :=
  (lifecycle_graded_only_on_success ⟨some sampleStrengthen, some "B", false, true⟩
    ⟨none, none, 0⟩ (.reject "offline") false "C").1 ⟨"offline"⟩ ⟨none, none, 1⟩ rfl

end LRPractice
